import Mathlib

/-!
Verification of the HTTP session gateway of `mcp-searxng`
(`createHttpServer`, source file with the Express HTTP server).

The gateway multiplexes MCP sessions over HTTP.  Its observable state is the
module-level map `transports` from session id to `StreamableHTTPServerTransport`.
The three route handlers (`POST /mcp`, `GET /mcp`, `DELETE /mcp`) are embedded
below as pure step functions on an explicit gateway state; the pieces supplied
by the MCP SDK (`isInitializeRequest`, `randomUUID`, the handshake performed
inside `transport.handleRequest`) are not part of this repository and are
modelled from the specification where noted.
-/

/-- A session id is the value of the `mcp-session-id` header: a JS string. -/
abbrev SessionId := String

/-- The observable part of a `StreamableHTTPServerTransport` object:
its identity (creation index) and its `sessionId` field, which the SDK sets
when the session handshake completes. -/
structure Transport where
  tid : Nat
  sessionId : Option SessionId
  deriving DecidableEq

/-- The module-level map `transports` (source: `const transports: { [sessionId: string]: StreamableHTTPServerTransport } = {}`),
embedded as an association list from session id to transport. -/
abbrev Registry := List (SessionId × Transport)

/-- JS property lookup `transports[sessionId]`. -/
def lookupT (sid : SessionId) : Registry → Option Transport
  | [] => none
  | (k, t) :: rest => if k = sid then some t else lookupT sid rest

/-- JS `delete transports[sid]`: remove every entry stored under `sid`. -/
def eraseKey (sid : SessionId) : Registry → Registry
  | [] => []
  | (k, t) :: rest => if k = sid then eraseKey sid rest else (k, t) :: eraseKey sid rest

/-- JS assignment `transports[sid] = t`. -/
def setKey (sid : SessionId) (t : Transport) (reg : Registry) : Registry :=
  (sid, t) :: eraseKey sid reg

/-- Truthiness of the JS expression `sessionId`, where
`sessionId = req.headers[..] as string | undefined`: an absent header and the
empty string are both falsy. -/
def truthy : Option SessionId → Bool
  | none => false
  | some s => !(s == "")

/-- A JSON-RPC message body, abstracted to the one field the gateway inspects. -/
structure JsonRpcMessage where
  method : String
  deriving DecidableEq

/-- Modelled from the spec: the SDK predicate `isInitializeRequest` recognises
the reserved handshake-initiation message shape ("a structurally specific
initialize message type, distinguished from ordinary requests by a reserved
method name/shape"). -/
def isInitializeRequest (m : JsonRpcMessage) : Bool :=
  m.method == "initialize"

/-- Modelled from the spec: `randomUUID` / `sessionIdGenerator` — "generates a
fresh unique identifier"; freshness is embedded by drawing the id from an
injective enumeration indexed by a per-process counter. -/
def genId (n : Nat) : SessionId :=
  String.mk (List.replicate (n + 1) 'u')

/-- The gateway state: the registry plus the freshness sources for transport
identities and generated session ids.  `issued` is a ghost trace of every id
the generator ever returned. -/
structure GatewayState where
  transports : Registry
  nextTid : Nat
  counter : Nat
  issued : List SessionId
  deriving DecidableEq

/-- The state of a freshly created gateway: empty registry, nothing issued. -/
def initialState : GatewayState :=
  { transports := [], nextTid := 0, counter := 0, issued := [] }

/-- An HTTP response of the gateway, restricted to the shapes the source
emits: a 200 produced by `transport.handleRequest` (carrying the new session
id header on a handshake), the structured JSON-RPC 400 of the POST handler,
and the plain-text 400 of the GET/DELETE handlers. -/
inductive Response where
  | ok (sessionHeader : Option SessionId)
  | badRequestJson (code : Int) (message : String)
  | badRequestText (message : String)
  deriving DecidableEq

/-- The HTTP status of a response. -/
def Response.status : Response → Nat
  | .ok _ => 200
  | .badRequestJson _ _ => 400
  | .badRequestText _ => 400

/-- The outcome of one route-handler invocation: the new gateway state, the
response written, and the identities of the transports whose `handleRequest`
method was invoked while serving this request. -/
structure StepResult where
  state : GatewayState
  response : Response
  calls : List Nat
  deriving DecidableEq

/-- The session lookup every handler begins with: the JS condition
`sessionId && transports[sessionId]` yields a transport exactly when the
header is truthy and the id is a key of the registry. -/
def findTransport (st : GatewayState) (header : Option SessionId) : Option Transport :=
  match header with
  | none => none
  | some s => if s = "" then none else lookupT s st.transports

/-- The `POST /mcp` handler.  Source structure:
`if (sessionId && transports[sessionId])` reuse the bound transport;
`else if (!sessionId && isInitializeRequest(req.body))` create a transport
whose `onsessioninitialized` callback stores it in `transports` under the
generated id and whose `onclose` callback deletes it, connect the server,
and let `transport.handleRequest` run the handshake (the handshake itself —
generate the id, fire `onsessioninitialized`, set `transport.sessionId`,
answer 200 with the id header — is SDK behaviour, modelled from the spec);
`else` answer 400 with the structured JSON-RPC error. -/
def postStep (st : GatewayState) (header : Option SessionId) (body : JsonRpcMessage) :
    StepResult :=
  match findTransport st header with
  | some t =>
      { state := st, response := .ok none, calls := [t.tid] }
  | none =>
      if !(truthy header) && isInitializeRequest body then
        let sid := genId st.counter
        let t : Transport := { tid := st.nextTid, sessionId := some sid }
        { state :=
            { transports := setKey sid t st.transports,
              nextTid := st.nextTid + 1,
              counter := st.counter + 1,
              issued := sid :: st.issued },
          response := .ok (some sid),
          calls := [st.nextTid] }
      else
        { state := st,
          response := .badRequestJson (-32000) "Bad Request: No valid session ID provided",
          calls := [] }

/-- The `GET /mcp` handler.  Source: `if (!sessionId || !transports[sessionId])`
answer 400 plain text, else delegate to the bound transport (opening the SSE
push channel; no registry change). -/
def getStep (st : GatewayState) (header : Option SessionId) : StepResult :=
  match findTransport st header with
  | none =>
      { state := st, response := .badRequestText "Invalid or missing session ID", calls := [] }
  | some t =>
      { state := st, response := .ok none, calls := [t.tid] }

/-- The `onclose` callback the POST handler installs on each new transport
(source: `if (transport.sessionId) delete transports[transport.sessionId]`). -/
def oncloseHandler (t : Transport) (reg : Registry) : Registry :=
  match t.sessionId with
  | some sid => eraseKey sid reg
  | none => reg

/-- The `DELETE /mcp` handler.  Source: `if (!sessionId || !transports[sessionId])`
answer 400 plain text, else delegate to the bound transport.  That the SDK
then terminates the session and fires the installed `onclose` callback is
modelled from the spec ("termination request: close session, acknowledge";
"on underlying channel closure ... the binding synchronously invokes
CloseSession"). -/
def deleteStep (st : GatewayState) (header : Option SessionId) : StepResult :=
  match findTransport st header with
  | none =>
      { state := st, response := .badRequestText "Invalid or missing session ID", calls := [] }
  | some t =>
      { state := { st with transports := oncloseHandler t st.transports },
        response := .ok none,
        calls := [t.tid] }

/-- An external event driving the gateway: one of the three HTTP requests, or
a channel-level disconnect of the transport bound to a session id, which
fires that transport's `onclose` callback. -/
inductive Event where
  | post (header : Option SessionId) (body : JsonRpcMessage)
  | get (header : Option SessionId)
  | delete (header : Option SessionId)
  | disconnect (sid : SessionId)

/-- The state transition of one event. -/
def eventStep (st : GatewayState) : Event → GatewayState
  | .post h b => (postStep st h b).state
  | .get h => (getStep st h).state
  | .delete h => (deleteStep st h).state
  | .disconnect sid =>
      match lookupT sid st.transports with
      | some t => { st with transports := oncloseHandler t st.transports }
      | none => st

/-- Run a list of events from a state. -/
def runEvents (st : GatewayState) : List Event → GatewayState
  | [] => st
  | e :: es => runEvents (eventStep st e) es

/-! ### Association-list lemmas for the registry -/

theorem lookupT_eraseKey_self (sid : SessionId) (reg : Registry) :
    lookupT sid (eraseKey sid reg) = none := by
  induction reg with
  | nil => rfl
  | cons p rest ih =>
      obtain ⟨k, u⟩ := p
      by_cases hk : k = sid
      · simpa [eraseKey, hk] using ih
      · simpa [eraseKey, lookupT, hk] using ih

theorem lookupT_eraseKey_ne {k sid : SessionId} (h : k ≠ sid) (reg : Registry) :
    lookupT k (eraseKey sid reg) = lookupT k reg := by
  induction reg with
  | nil => rfl
  | cons p rest ih =>
      obtain ⟨k1, u⟩ := p
      by_cases h1 : k1 = sid
      · simpa [eraseKey, lookupT, h1, Ne.symm h] using ih
      · by_cases h2 : k1 = k
        · simp [eraseKey, lookupT, h1, h2, h]
        · simpa [eraseKey, lookupT, h1, h2] using ih

theorem mem_of_lookupT {sid : SessionId} {t : Transport} {reg : Registry}
    (h : lookupT sid reg = some t) : (sid, t) ∈ reg := by
  induction reg with
  | nil => simp [lookupT] at h
  | cons p rest ih =>
      obtain ⟨k, u⟩ := p
      by_cases hk : k = sid
      · simp only [lookupT, if_pos hk, Option.some.injEq] at h
        subst h
        subst hk
        exact List.mem_cons_self _ _
      · simp only [lookupT, if_neg hk] at h
        exact List.mem_cons_of_mem _ (ih h)

theorem lookupT_eq_none_of_not_key {sid : SessionId} {reg : Registry}
    (h : ∀ p ∈ reg, p.1 ≠ sid) : lookupT sid reg = none := by
  induction reg with
  | nil => rfl
  | cons p rest ih =>
      obtain ⟨k, u⟩ := p
      have hk : k ≠ sid := h (k, u) (List.mem_cons_self _ _)
      simp only [lookupT, if_neg hk]
      exact ih (fun q hq => h q (List.mem_cons_of_mem _ hq))

theorem eraseKey_sublist (sid : SessionId) (reg : Registry) :
    List.Sublist (eraseKey sid reg) reg := by
  induction reg with
  | nil => simp [eraseKey]
  | cons p rest ih =>
      obtain ⟨k, u⟩ := p
      by_cases hk : k = sid
      · simp only [eraseKey, if_pos hk]
        exact List.Sublist.cons _ ih
      · simp only [eraseKey, if_neg hk]
        exact List.Sublist.cons₂ _ ih

theorem mem_eraseKey {p : SessionId × Transport} {sid : SessionId} {reg : Registry}
    (h : p ∈ eraseKey sid reg) : p ∈ reg :=
  (eraseKey_sublist sid reg).subset h

theorem eraseKey_eq_self {sid : SessionId} {reg : Registry}
    (h : ∀ p ∈ reg, p.1 ≠ sid) : eraseKey sid reg = reg := by
  induction reg with
  | nil => rfl
  | cons p rest ih =>
      obtain ⟨k, u⟩ := p
      have hk : k ≠ sid := h (k, u) (List.mem_cons_self _ _)
      simp only [eraseKey, if_neg hk]
      rw [ih (fun q hq => h q (List.mem_cons_of_mem _ hq))]

theorem length_eraseKey_of_lookupT {sid : SessionId} {t : Transport} {reg : Registry}
    (hnodup : (reg.map Prod.fst).Nodup) (h : lookupT sid reg = some t) :
    (eraseKey sid reg).length + 1 = reg.length := by
  induction reg with
  | nil => simp [lookupT] at h
  | cons p rest ih =>
      obtain ⟨k, u⟩ := p
      simp only [List.map_cons, List.nodup_cons] at hnodup
      by_cases hk : k = sid
      · have hrest : ∀ q ∈ rest, q.1 ≠ sid := by
          intro q hq hq1
          have hm : q.1 ∈ rest.map Prod.fst := List.mem_map_of_mem Prod.fst hq
          rw [hq1, ← hk] at hm
          exact hnodup.1 hm
        simp [eraseKey, if_pos hk, eraseKey_eq_self hrest]
      · simp only [lookupT, if_neg hk] at h
        have hlen := ih hnodup.2 h
        simp only [eraseKey, if_neg hk, List.length_cons]
        omega

/-! ### Freshness of generated session ids -/

theorem genId_inj {a b : Nat} (h : genId a = genId b) : a = b := by
  have h1 : List.replicate (a + 1) 'u' = List.replicate (b + 1) 'u' :=
    congrArg String.data h
  have h2 := congrArg List.length h1
  simp only [List.length_replicate] at h2
  omega

theorem genId_ne_empty (n : Nat) : genId n ≠ "" := by
  intro h
  have h1 : List.replicate (n + 1) 'u' = ([] : List Char) :=
    congrArg String.data h
  have h2 := congrArg List.length h1
  simp at h2

/-! ### The reachability invariant of the gateway -/

/-- Key consistency: each registry key maps to a transport whose own
`sessionId` field is that key. -/
def KeyConsistent (reg : Registry) : Prop :=
  ∀ p ∈ reg, p.2.sessionId = some p.1

/-- The invariant every reachable gateway state satisfies. -/
structure GatewayInv (st : GatewayState) : Prop where
  issuedSpec : ∀ s ∈ st.issued, ∃ k, k < st.counter ∧ s = genId k
  issuedNodup : st.issued.Nodup
  keysIssued : ∀ p ∈ st.transports, p.1 ∈ st.issued
  keyConsistent : KeyConsistent st.transports
  keysNodup : (st.transports.map Prod.fst).Nodup
  tidBound : ∀ p ∈ st.transports, p.2.tid < st.nextTid

theorem gatewayInvInitial : GatewayInv initialState := by
  refine ⟨?_, ?_, ?_, ?_, ?_, ?_⟩ <;> simp [initialState, KeyConsistent]

theorem freshId_not_issued {st : GatewayState} (hInv : GatewayInv st) :
    genId st.counter ∉ st.issued := by
  intro hmem
  obtain ⟨k, hk, he⟩ := hInv.issuedSpec _ hmem
  have := genId_inj he
  omega

theorem freshKeys {st : GatewayState} (hInv : GatewayInv st) :
    ∀ p ∈ st.transports, p.1 ≠ genId st.counter := by
  intro p hp h1
  exact freshId_not_issued hInv (h1 ▸ hInv.keysIssued p hp)

theorem freshId_not_key {st : GatewayState} (hInv : GatewayInv st) :
    lookupT (genId st.counter) st.transports = none :=
  lookupT_eq_none_of_not_key (freshKeys hInv)

theorem oncloseHandler_sublist (t : Transport) (reg : Registry) :
    List.Sublist (oncloseHandler t reg) reg := by
  cases h : t.sessionId with
  | none =>
      simp only [oncloseHandler, h]
      exact List.Sublist.refl reg
  | some sid =>
      simpa only [oncloseHandler, h] using eraseKey_sublist sid reg

theorem inv_of_sub {st : GatewayState} (hInv : GatewayInv st) (reg : Registry)
    (hsub : List.Sublist reg st.transports) :
    GatewayInv { st with transports := reg } := by
  refine ⟨hInv.issuedSpec, hInv.issuedNodup, ?_, ?_, ?_, ?_⟩
  · exact fun p hp => hInv.keysIssued p (hsub.subset hp)
  · exact fun p hp => hInv.keyConsistent p (hsub.subset hp)
  · exact List.Nodup.sublist (hsub.map Prod.fst) hInv.keysNodup
  · exact fun p hp => hInv.tidBound p (hsub.subset hp)

theorem setKey_fresh_eq {st : GatewayState} (hInv : GatewayInv st) (t : Transport) :
    setKey (genId st.counter) t st.transports
      = (genId st.counter, t) :: st.transports := by
  simp [setKey, eraseKey_eq_self (freshKeys hInv)]

theorem gatewayInvStep {st : GatewayState} (hInv : GatewayInv st) (e : Event) :
    GatewayInv (eventStep st e) := by
  cases e with
  | post header body =>
      show GatewayInv (postStep st header body).state
      cases hft : findTransport st header with
      | some t => simpa only [postStep, hft] using hInv
      | none =>
          by_cases hcond : (!(truthy header) && isInitializeRequest body) = true
          · simp only [postStep, hft, hcond, if_pos]
            rw [setKey_fresh_eq hInv]
            refine ⟨?_, ?_, ?_, ?_, ?_, ?_⟩
            · intro s hs
              rcases List.mem_cons.1 hs with h | h
              · exact ⟨st.counter, Nat.lt_succ_self _, h⟩
              · obtain ⟨k, hk, he⟩ := hInv.issuedSpec s h
                exact ⟨k, Nat.lt_succ_of_lt hk, he⟩
            · exact List.Nodup.cons (freshId_not_issued hInv) hInv.issuedNodup
            · intro p hp
              rcases List.mem_cons.1 hp with h | h
              · rw [h]
                exact List.mem_cons_self _ _
              · exact List.mem_cons_of_mem _ (hInv.keysIssued p h)
            · intro p hp
              rcases List.mem_cons.1 hp with h | h
              · rw [h]
              · exact hInv.keyConsistent p h
            · rw [List.map_cons]
              refine List.Nodup.cons ?_ hInv.keysNodup
              intro hmem
              rcases List.mem_map.1 hmem with ⟨p, hp, hpe⟩
              exact freshKeys hInv p hp hpe
            · intro p hp
              rcases List.mem_cons.1 hp with h | h
              · rw [h]
                exact Nat.lt_succ_self _
              · exact Nat.lt_succ_of_lt (hInv.tidBound p h)
          · simpa only [postStep, hft, hcond, if_neg, if_false, Bool.not_eq_true] using hInv
  | get header =>
      show GatewayInv (getStep st header).state
      cases hft : findTransport st header with
      | none => simpa only [getStep, hft] using hInv
      | some t => simpa only [getStep, hft] using hInv
  | delete header =>
      show GatewayInv (deleteStep st header).state
      cases hft : findTransport st header with
      | none => simpa only [deleteStep, hft] using hInv
      | some t =>
          simp only [deleteStep, hft]
          exact inv_of_sub hInv _ (oncloseHandler_sublist t st.transports)
  | disconnect sid =>
      show GatewayInv (eventStep st (.disconnect sid))
      cases hlk : lookupT sid st.transports with
      | none => simpa only [eventStep, hlk] using hInv
      | some t =>
          simp only [eventStep, hlk]
          exact inv_of_sub hInv _ (oncloseHandler_sublist t st.transports)

theorem gatewayInvRun {st : GatewayState} (hInv : GatewayInv st) (evs : List Event) :
    GatewayInv (runEvents st evs) := by
  induction evs generalizing st with
  | nil => exact hInv
  | cons e es ih => exact ih (gatewayInvStep hInv e)

theorem lookupT_setKey_self (sid : SessionId) (t : Transport) (reg : Registry) :
    lookupT sid (setKey sid t reg) = some t := by
  simp [setKey, lookupT]

/-! ### Claim theorems -/

/-- Claim C1: for every POST to the gateway endpoint whose body is a valid
initialize (handshake) message and which carries no session-id header, the
router creates a new session: it constructs a fresh transport, registers it in
the session registry under a freshly generated id, processes the message, and
returns a 200 response that carries the new session id. -/
theorem postNoHeaderInitializeCreatesSession (st : GatewayState) (body : JsonRpcMessage)
    (hInv : GatewayInv st) (hinit : isInitializeRequest body = true) :
    (postStep st none body).response = .ok (some (genId st.counter)) ∧
    (postStep st none body).response.status = 200 ∧
    lookupT (genId st.counter) st.transports = none ∧
    genId st.counter ∉ st.issued ∧
    lookupT (genId st.counter) (postStep st none body).state.transports
      = some { tid := st.nextTid, sessionId := some (genId st.counter) } ∧
    (∀ p ∈ st.transports, p.2.tid ≠ st.nextTid) ∧
    (postStep st none body).calls = [st.nextTid] := by
  refine ⟨?_, ?_, freshId_not_key hInv, freshId_not_issued hInv, ?_, ?_, ?_⟩
  · simp [postStep, findTransport, truthy, hinit]
  · simp [postStep, findTransport, truthy, hinit, Response.status]
  · simp [postStep, findTransport, truthy, hinit, lookupT_setKey_self]
  · intro p hp h
    exact Nat.lt_irrefl _ (h ▸ hInv.tidBound p hp)
  · simp [postStep, findTransport, truthy, hinit]

theorem postNoHeaderInitializeCreatesSession_witness :
    (postStep initialState none { method := "initialize" }).response
      = .ok (some (genId initialState.counter)) ∧
    (postStep initialState none { method := "initialize" }).response.status = 200 ∧
    lookupT (genId initialState.counter) initialState.transports = none ∧
    genId initialState.counter ∉ initialState.issued ∧
    lookupT (genId initialState.counter)
        (postStep initialState none { method := "initialize" }).state.transports
      = some { tid := initialState.nextTid, sessionId := some (genId initialState.counter) } ∧
    (∀ p ∈ initialState.transports, p.2.tid ≠ initialState.nextTid) ∧
    (postStep initialState none { method := "initialize" }).calls = [initialState.nextTid] :=
  postNoHeaderInitializeCreatesSession initialState { method := "initialize" }
    gatewayInvInitial (by decide)

/-- Claim C3: a POST to the gateway endpoint with no session-id header whose
body is not a handshake-initiation message is rejected with HTTP 400 and a
structured JSON error object with code -32000 whose message says no valid
session ID was provided; no session is created (the state is unchanged). -/
theorem postNoHeaderNonInitializeRejected (st : GatewayState) (body : JsonRpcMessage)
    (h : isInitializeRequest body = false) :
    postStep st none body =
      { state := st,
        response := .badRequestJson (-32000) "Bad Request: No valid session ID provided",
        calls := [] } ∧
    (postStep st none body).response.status = 400 := by
  constructor
  · simp [postStep, findTransport, truthy, h]
  · simp [postStep, findTransport, truthy, h, Response.status]

theorem postNoHeaderNonInitializeRejected_witness :
    postStep initialState none { method := "tools/list" } =
      { state := initialState,
        response := .badRequestJson (-32000) "Bad Request: No valid session ID provided",
        calls := [] } ∧
    (postStep initialState none { method := "tools/list" }).response.status = 400 :=
  postNoHeaderNonInitializeRejected initialState { method := "tools/list" } (by decide)

/-- Claim C4: every GET and every DELETE to the gateway endpoint with a missing
session-id header, or with a session id that does not resolve in the registry,
answers HTTP 400 with the plain-text body "Invalid or missing session ID", and
leaves the registry (indeed the whole state) unchanged. -/
theorem getDeleteInvalidSessionRejected (st : GatewayState) (header : Option SessionId)
    (h : header = none ∨ ∀ s, header = some s → lookupT s st.transports = none) :
    getStep st header =
      { state := st, response := .badRequestText "Invalid or missing session ID",
        calls := [] } ∧
    deleteStep st header =
      { state := st, response := .badRequestText "Invalid or missing session ID",
        calls := [] } ∧
    (getStep st header).response.status = 400 ∧
    (deleteStep st header).response.status = 400 := by
  have hft : findTransport st header = none := by
    rcases h with h | h
    · rw [h]
      rfl
    · cases header with
      | none => rfl
      | some s =>
          by_cases hs : s = ""
          · simp [findTransport, hs]
          · simp [findTransport, hs, h s rfl]
  refine ⟨?_, ?_, ?_, ?_⟩ <;> simp [getStep, deleteStep, hft, Response.status]

theorem getDeleteInvalidSessionRejected_witness :
    getStep initialState (some "x") =
      { state := initialState, response := .badRequestText "Invalid or missing session ID",
        calls := [] } ∧
    deleteStep initialState (some "x") =
      { state := initialState, response := .badRequestText "Invalid or missing session ID",
        calls := [] } ∧
    (getStep initialState (some "x")).response.status = 400 ∧
    (deleteStep initialState (some "x")).response.status = 400 :=
  getDeleteInvalidSessionRejected initialState (some "x") (Or.inr (fun _ _ => rfl))

theorem not_key_of_mem_eraseKey {p : SessionId × Transport} {sid : SessionId} {reg : Registry}
    (h : p ∈ eraseKey sid reg) : p.1 ≠ sid := by
  induction reg with
  | nil => simp [eraseKey] at h
  | cons q rest ih =>
      obtain ⟨k, u⟩ := q
      by_cases hk : k = sid
      · exact ih (by simpa [eraseKey, hk] using h)
      · rcases List.mem_cons.1 (by simpa [eraseKey, hk] using h) with h1 | h1
        · rw [h1]
          exact hk
        · exact ih h1

theorem eraseKey_idem (sid : SessionId) (reg : Registry) :
    eraseKey sid (eraseKey sid reg) = eraseKey sid reg :=
  eraseKey_eq_self (fun _ hp => not_key_of_mem_eraseKey hp)

theorem lookupT_setKey_ne {k sid : SessionId} (h : k ≠ sid) (t : Transport) (reg : Registry) :
    lookupT k (setKey sid t reg) = lookupT k reg := by
  simp only [setKey, lookupT, if_neg (Ne.symm h)]
  exact lookupT_eraseKey_ne h reg

theorem lookupT_eraseKey_none {sid k : SessionId} {reg : Registry}
    (h : lookupT sid reg = none) : lookupT sid (eraseKey k reg) = none := by
  by_cases hk : sid = k
  · rw [hk]
    exact lookupT_eraseKey_self k reg
  · rw [lookupT_eraseKey_ne hk]
    exact h

/-- Claim C5: session close is idempotent.  The `onclose` cleanup handler is
idempotent as a registry operation; a disconnect for an id absent from the
registry is a no-op (and by construction never an error); in a key-consistent
state, running the disconnect twice equals running it once, and when the id is
registered the first run removes exactly one entry. -/
theorem closeSessionIdempotent :
    (∀ t reg, oncloseHandler t (oncloseHandler t reg) = oncloseHandler t reg) ∧
    (∀ st sid, lookupT sid st.transports = none → eventStep st (.disconnect sid) = st) ∧
    (∀ st sid, KeyConsistent st.transports →
      eventStep (eventStep st (.disconnect sid)) (.disconnect sid)
        = eventStep st (.disconnect sid)) ∧
    (∀ st sid t, KeyConsistent st.transports → (st.transports.map Prod.fst).Nodup →
      lookupT sid st.transports = some t →
      (eventStep st (.disconnect sid)).transports = eraseKey sid st.transports ∧
      (eraseKey sid st.transports).length + 1 = st.transports.length) := by
  refine ⟨?_, ?_, ?_, ?_⟩
  · intro t reg
    cases h : t.sessionId with
    | none => simp [oncloseHandler, h]
    | some sid => simp [oncloseHandler, h, eraseKey_idem]
  · intro st sid h
    simp [eventStep, h]
  · intro st sid hKC
    cases hlk : lookupT sid st.transports with
    | none => simp [eventStep, hlk]
    | some t =>
        have hts : t.sessionId = some sid := hKC (sid, t) (mem_of_lookupT hlk)
        have h2 : lookupT sid (oncloseHandler t st.transports) = none := by
          simp [oncloseHandler, hts, lookupT_eraseKey_self]
        simp [eventStep, hlk, h2]
  · intro st sid t hKC hnd hlk
    have hts : t.sessionId = some sid := hKC (sid, t) (mem_of_lookupT hlk)
    constructor
    · simp [eventStep, hlk, oncloseHandler, hts]
    · exact length_eraseKey_of_lookupT hnd hlk

theorem closeSessionIdempotent_witness :
    (oncloseHandler { tid := 0, sessionId := some "a" }
        (oncloseHandler { tid := 0, sessionId := some "a" }
          [("a", { tid := 0, sessionId := some "a" })])
      = oncloseHandler { tid := 0, sessionId := some "a" }
          [("a", { tid := 0, sessionId := some "a" })]) ∧
    eventStep initialState (.disconnect "a") = initialState ∧
    (eventStep
        (eventStep
          { transports := [("a", { tid := 0, sessionId := some "a" })],
            nextTid := 1, counter := 1, issued := ["a"] } (.disconnect "a"))
        (.disconnect "a")
      = eventStep
          { transports := [("a", { tid := 0, sessionId := some "a" })],
            nextTid := 1, counter := 1, issued := ["a"] } (.disconnect "a")) ∧
    ((eventStep
        { transports := [("a", { tid := 0, sessionId := some "a" })],
          nextTid := 1, counter := 1, issued := ["a"] } (.disconnect "a")).transports
        = eraseKey "a" [("a", { tid := 0, sessionId := some "a" })] ∧
      (eraseKey "a" [("a", { tid := 0, sessionId := some "a" })]).length + 1
        = [("a", ({ tid := 0, sessionId := some "a" } : Transport))].length) :=
  ⟨closeSessionIdempotent.1 _ _,
   closeSessionIdempotent.2.1 initialState "a" rfl,
   closeSessionIdempotent.2.2.1 _ "a" (fun p hp => by rw [List.mem_singleton.1 hp]),
   closeSessionIdempotent.2.2.2 _ "a" { tid := 0, sessionId := some "a" }
     (fun p hp => by rw [List.mem_singleton.1 hp]) (by decide) (by decide)⟩

theorem lookupT_oncloseHandler_none {sid : SessionId} {t : Transport} {reg : Registry}
    (h : lookupT sid reg = none) : lookupT sid (oncloseHandler t reg) = none := by
  cases hts : t.sessionId with
  | none => simpa [oncloseHandler, hts] using h
  | some k => simp [oncloseHandler, hts, lookupT_eraseKey_none h]

theorem closedPreserved {st : GatewayState} (hInv : GatewayInv st) {sid : SessionId}
    (hiss : sid ∈ st.issued) (hlk : lookupT sid st.transports = none) (e : Event) :
    sid ∈ (eventStep st e).issued ∧ lookupT sid (eventStep st e).transports = none := by
  cases e with
  | post header body =>
      show sid ∈ (postStep st header body).state.issued ∧
        lookupT sid (postStep st header body).state.transports = none
      cases hft : findTransport st header with
      | some t => simp [postStep, hft, hiss, hlk]
      | none =>
          by_cases hcond : (!(truthy header) && isInitializeRequest body) = true
          · have hne : sid ≠ genId st.counter := by
              intro he
              exact freshId_not_issued hInv (he ▸ hiss)
            constructor
            · simp only [postStep, hft, hcond, if_pos]
              exact List.mem_cons_of_mem _ hiss
            · simp only [postStep, hft, hcond, if_pos]
              rw [lookupT_setKey_ne hne]
              exact hlk
          · simp [postStep, hft, hcond, hiss, hlk]
  | get header =>
      show sid ∈ (getStep st header).state.issued ∧
        lookupT sid (getStep st header).state.transports = none
      cases hft : findTransport st header <;> simp [getStep, hft, hiss, hlk]
  | delete header =>
      show sid ∈ (deleteStep st header).state.issued ∧
        lookupT sid (deleteStep st header).state.transports = none
      cases hft : findTransport st header with
      | none => simp [deleteStep, hft, hiss, hlk]
      | some t =>
          refine ⟨by simpa [deleteStep, hft] using hiss, ?_⟩
          simp only [deleteStep, hft]
          exact lookupT_oncloseHandler_none hlk
  | disconnect s =>
      cases hlk2 : lookupT s st.transports with
      | none => simp [eventStep, hlk2, hiss, hlk]
      | some t =>
          refine ⟨by simpa [eventStep, hlk2] using hiss, ?_⟩
          simp only [eventStep, hlk2]
          exact lookupT_oncloseHandler_none hlk

theorem closedStaysClosed {st : GatewayState} (hInv : GatewayInv st) {sid : SessionId}
    (hiss : sid ∈ st.issued) (hlk : lookupT sid st.transports = none) (evs : List Event) :
    sid ∈ (runEvents st evs).issued ∧ lookupT sid (runEvents st evs).transports = none := by
  induction evs generalizing st with
  | nil => exact ⟨hiss, hlk⟩
  | cons e es ih =>
      obtain ⟨h1, h2⟩ := closedPreserved hInv hiss hlk e
      exact ih (gatewayInvStep hInv e) h1 h2

theorem issued_ne_empty {st : GatewayState} (hInv : GatewayInv st) {sid : SessionId}
    (hiss : sid ∈ st.issued) : sid ≠ "" := by
  obtain ⟨k, _, he⟩ := hInv.issuedSpec sid hiss
  rw [he]
  exact genId_ne_empty k

/-- Claim C6: once a session is closed its registry entry is removed, and every
later request referencing that id is rejected exactly as an unknown session
would be — the responses coincide with the unknown-session responses, so no
"closed session" is distinguishable; in particular a successful DELETE answers
200 and a subsequent GET with the same id answers 400. -/
theorem closedSessionStaysUnknown :
    (∀ st sid t, GatewayInv st → lookupT sid st.transports = some t →
      (deleteStep st (some sid)).response.status = 200 ∧
      lookupT sid (deleteStep st (some sid)).state.transports = none ∧
      getStep (deleteStep st (some sid)).state (some sid) =
        { state := (deleteStep st (some sid)).state,
          response := .badRequestText "Invalid or missing session ID", calls := [] }) ∧
    (∀ st sid, GatewayInv st → sid ∈ st.issued → lookupT sid st.transports = none →
      ∀ evs body,
        lookupT sid (runEvents st evs).transports = none ∧
        getStep (runEvents st evs) (some sid) =
          { state := runEvents st evs,
            response := .badRequestText "Invalid or missing session ID", calls := [] } ∧
        deleteStep (runEvents st evs) (some sid) =
          { state := runEvents st evs,
            response := .badRequestText "Invalid or missing session ID", calls := [] } ∧
        (postStep (runEvents st evs) (some sid) body).response =
          .badRequestJson (-32000) "Bad Request: No valid session ID provided" ∧
        (postStep (runEvents st evs) (some sid) body).state = runEvents st evs ∧
        (postStep (runEvents st evs) (some sid) body).calls = []) := by
  constructor
  · intro st sid t hInv hlk
    have hiss : sid ∈ st.issued := hInv.keysIssued (sid, t) (mem_of_lookupT hlk)
    have hs : sid ≠ "" := issued_ne_empty hInv hiss
    have hts : t.sessionId = some sid := hInv.keyConsistent (sid, t) (mem_of_lookupT hlk)
    have hft : findTransport st (some sid) = some t := by
      simp [findTransport, hs, hlk]
    have hafter : lookupT sid (deleteStep st (some sid)).state.transports = none := by
      simp [deleteStep, hft, oncloseHandler, hts, lookupT_eraseKey_self]
    refine ⟨by simp [deleteStep, hft, Response.status], hafter, ?_⟩
    have hft2 : findTransport (deleteStep st (some sid)).state (some sid) = none := by
      simp [findTransport, hs, hafter]
    simp [getStep, hft2]
  · intro st sid hInv hiss hlk evs body
    obtain ⟨hiss2, hlk2⟩ := closedStaysClosed hInv hiss hlk evs
    have hs : sid ≠ "" := issued_ne_empty hInv hiss
    have hft : findTransport (runEvents st evs) (some sid) = none := by
      simp [findTransport, hs, hlk2]
    have htr : truthy (some sid) = true := by
      simp [truthy, hs]
    refine ⟨hlk2, by simp [getStep, hft], by simp [deleteStep, hft], ?_, ?_, ?_⟩ <;>
      simp [postStep, hft, htr]

theorem closedSessionStaysUnknown_witness :
    ((deleteStep (runEvents initialState [.post none { method := "initialize" }])
        (some (genId 0))).response.status = 200 ∧
      lookupT (genId 0)
        (deleteStep (runEvents initialState [.post none { method := "initialize" }])
          (some (genId 0))).state.transports = none ∧
      getStep (deleteStep (runEvents initialState [.post none { method := "initialize" }])
          (some (genId 0))).state (some (genId 0)) =
        { state := (deleteStep (runEvents initialState [.post none { method := "initialize" }])
            (some (genId 0))).state,
          response := .badRequestText "Invalid or missing session ID", calls := [] }) ∧
    (lookupT (genId 0)
        (runEvents
          (runEvents initialState
            [.post none { method := "initialize" }, .delete (some (genId 0))])
          [.get (some (genId 0))]).transports = none ∧
      getStep
          (runEvents
            (runEvents initialState
              [.post none { method := "initialize" }, .delete (some (genId 0))])
            [.get (some (genId 0))]) (some (genId 0)) =
        { state := runEvents
            (runEvents initialState
              [.post none { method := "initialize" }, .delete (some (genId 0))])
            [.get (some (genId 0))],
          response := .badRequestText "Invalid or missing session ID", calls := [] } ∧
      deleteStep
          (runEvents
            (runEvents initialState
              [.post none { method := "initialize" }, .delete (some (genId 0))])
            [.get (some (genId 0))]) (some (genId 0)) =
        { state := runEvents
            (runEvents initialState
              [.post none { method := "initialize" }, .delete (some (genId 0))])
            [.get (some (genId 0))],
          response := .badRequestText "Invalid or missing session ID", calls := [] } ∧
      (postStep
          (runEvents
            (runEvents initialState
              [.post none { method := "initialize" }, .delete (some (genId 0))])
            [.get (some (genId 0))]) (some (genId 0)) { method := "initialize" }).response =
        .badRequestJson (-32000) "Bad Request: No valid session ID provided" ∧
      (postStep
          (runEvents
            (runEvents initialState
              [.post none { method := "initialize" }, .delete (some (genId 0))])
            [.get (some (genId 0))]) (some (genId 0)) { method := "initialize" }).state =
        runEvents
          (runEvents initialState
            [.post none { method := "initialize" }, .delete (some (genId 0))])
          [.get (some (genId 0))] ∧
      (postStep
          (runEvents
            (runEvents initialState
              [.post none { method := "initialize" }, .delete (some (genId 0))])
            [.get (some (genId 0))]) (some (genId 0)) { method := "initialize" }).calls = []) :=
  ⟨closedSessionStaysUnknown.1
      (runEvents initialState [.post none { method := "initialize" }]) (genId 0)
      { tid := 0, sessionId := some (genId 0) }
      (gatewayInvRun gatewayInvInitial _) (by decide),
   closedSessionStaysUnknown.2
      (runEvents initialState
        [.post none { method := "initialize" }, .delete (some (genId 0))]) (genId 0)
      (gatewayInvRun gatewayInvInitial _) (by decide) (by decide)
      [.get (some (genId 0))] { method := "initialize" }⟩

/-- Claim C7: over any event trace of a process lifetime, the session ids
returned by successful handshakes are pairwise distinct (the ghost trace of
issued ids has no duplicates, so no id is ever issued twice or reused after a
close); and a burst of N handshake requests yields N distinct new ids and N
new registry entries — none lost. -/
theorem sessionIdsNeverReused :
    (∀ evs, ((runEvents initialState evs).issued).Nodup) ∧
    (∀ N st, GatewayInv st →
      (runEvents st
          (List.replicate N (Event.post none { method := "initialize" }))).transports.length
          = st.transports.length + N ∧
      (runEvents st
          (List.replicate N (Event.post none { method := "initialize" }))).issued.length
          = st.issued.length + N ∧
      ((runEvents st
          (List.replicate N (Event.post none { method := "initialize" }))).issued).Nodup) := by
  constructor
  · intro evs
    exact (gatewayInvRun gatewayInvInitial evs).issuedNodup
  · intro N
    induction N with
    | zero =>
        intro st hInv
        exact ⟨by simp [runEvents], by simp [runEvents],
          by simpa [runEvents] using hInv.issuedNodup⟩
    | succ n ih =>
        intro st hInv
        have hstep : eventStep st (Event.post none { method := "initialize" }) =
            { transports := (genId st.counter,
                { tid := st.nextTid, sessionId := some (genId st.counter) }) :: st.transports,
              nextTid := st.nextTid + 1, counter := st.counter + 1,
              issued := genId st.counter :: st.issued } := by
          show (postStep st none { method := "initialize" }).state = _
          simp [postStep, findTransport, truthy, isInitializeRequest, setKey_fresh_eq hInv]
        obtain ⟨h1, h2, h3⟩ :=
          ih (eventStep st (Event.post none { method := "initialize" }))
            (gatewayInvStep hInv _)
        rw [hstep] at h1 h2 h3
        rw [List.replicate_succ, runEvents, hstep]
        simp only [List.length_cons] at h1 h2
        exact ⟨by omega, by omega, h3⟩

theorem sessionIdsNeverReused_witness :
    (runEvents initialState
        (List.replicate 3 (Event.post none { method := "initialize" }))).transports.length
        = initialState.transports.length + 3 ∧
    (runEvents initialState
        (List.replicate 3 (Event.post none { method := "initialize" }))).issued.length
        = initialState.issued.length + 3 ∧
    ((runEvents initialState
        (List.replicate 3 (Event.post none { method := "initialize" }))).issued).Nodup :=
  sessionIdsNeverReused.2 3 initialState gatewayInvInitial

/-- Claim C9 counterexample: a POST that carries a session-id header whose
value is the empty string, with an initialize body, does create a new session
— the handler tests truthiness, not presence, of the header, so the empty
header falls into the handshake branch. -/
theorem postWithHeaderNeverCreates_counterexample :
    (postStep initialState (some "") { method := "initialize" }).state.transports
      = [(genId 0, { tid := 0, sessionId := some (genId 0) })] ∧
    (postStep initialState (some "") { method := "initialize" }).response
      = .ok (some (genId 0)) := by decide

/-- Claim C9 (amended): a POST that carries a non-empty session-id header
never creates a session, whatever the body: a known id is routed to the
already-bound transport with the state unchanged (even for an
initialize-shaped body), an unknown id is rejected with the structured 400
and the state unchanged; the handshake validator decides the outcome only
when the header is absent or empty. -/
theorem postWithHeaderNeverCreates (st : GatewayState) (s : SessionId) (hs : s ≠ "")
    (body : JsonRpcMessage) :
    (∀ t, lookupT s st.transports = some t →
      postStep st (some s) body =
        { state := st, response := .ok none, calls := [t.tid] }) ∧
    (lookupT s st.transports = none →
      postStep st (some s) body =
        { state := st,
          response := .badRequestJson (-32000) "Bad Request: No valid session ID provided",
          calls := [] }) := by
  constructor
  · intro t ht
    simp [postStep, findTransport, hs, ht]
  · intro ht
    have htr : truthy (some s) = true := by
      simp [truthy, hs]
    simp [postStep, findTransport, hs, ht, htr]

theorem postWithHeaderNeverCreates_witness :
    postStep (runEvents initialState [.post none { method := "initialize" }])
        (some (genId 0)) { method := "initialize" } =
      { state := runEvents initialState [.post none { method := "initialize" }],
        response := .ok none, calls := [0] } ∧
    postStep initialState (some "x") { method := "initialize" } =
      { state := initialState,
        response := .badRequestJson (-32000) "Bad Request: No valid session ID provided",
        calls := [] } :=
  ⟨(postWithHeaderNeverCreates
        (runEvents initialState [.post none { method := "initialize" }])
        (genId 0) (by decide) { method := "initialize" }).1
      { tid := 0, sessionId := some (genId 0) } (by decide),
   (postWithHeaderNeverCreates initialState "x" (by decide) { method := "initialize" }).2
      rfl⟩

/-- Claim C10: the registry is key-consistent at every reachable state (every
key maps to a transport whose own session id is that key), the GET handler
never changes the state, the DELETE handler only removes entries, and the
POST handler adds at most the single entry installed by the
session-initialized callback under the freshly generated id. -/
theorem registryKeyConsistent :
    (∀ evs, KeyConsistent (runEvents initialState evs).transports) ∧
    (∀ st header, (getStep st header).state = st) ∧
    (∀ st header, ∀ p ∈ (deleteStep st header).state.transports, p ∈ st.transports) ∧
    (∀ st header body, ∀ p ∈ (postStep st header body).state.transports,
      p ∈ st.transports ∨
        p = (genId st.counter,
          { tid := st.nextTid, sessionId := some (genId st.counter) })) := by
  refine ⟨?_, ?_, ?_, ?_⟩
  · intro evs
    exact (gatewayInvRun gatewayInvInitial evs).keyConsistent
  · intro st header
    cases hft : findTransport st header <;> simp [getStep, hft]
  · intro st header p hp
    cases hft : findTransport st header with
    | none =>
        simp only [deleteStep, hft] at hp
        exact hp
    | some t =>
        simp only [deleteStep, hft] at hp
        exact (oncloseHandler_sublist t st.transports).subset hp
  · intro st header body p hp
    cases hft : findTransport st header with
    | none =>
        by_cases hcond : (!(truthy header) && isInitializeRequest body) = true
        · simp only [postStep, hft, hcond, if_pos, setKey] at hp
          rcases List.mem_cons.1 hp with h | h
          · exact Or.inr h
          · exact Or.inl (mem_eraseKey h)
        · simp only [postStep, hft, hcond, if_neg, if_false, Bool.not_eq_true] at hp
          exact Or.inl hp
    | some t =>
        simp only [postStep, hft] at hp
        exact Or.inl hp

/-- Claim C2 counterexample: a POST carrying the empty string as its session
id — an id that is not present in the registry — is not rejected when its
body is an initialize message: it is answered 200 and dispatched to a
transport (one handleRequest invocation). -/
theorem unknownSessionNeverDispatched_counterexample :
    lookupT "" initialState.transports = none ∧
    (postStep initialState (some "") { method := "initialize" }).response.status = 200 ∧
    (postStep initialState (some "") { method := "initialize" }).calls = [0] := by decide

/-- Claim C2 (amended): for every inbound request whose session id is not in
the registry — except a POST whose session-id header is the empty string and
whose body is an initialize message, which the router treats exactly as if no
header were present — the router answers a bad-request error, leaves the
state unchanged, and invokes no transport's handleRequest. -/
theorem unknownSessionNeverDispatched (st : GatewayState) (s : SessionId)
    (hlk : lookupT s st.transports = none) (body : JsonRpcMessage)
    (hexc : s = "" → isInitializeRequest body = false) :
    ((postStep st (some s) body).response.status = 400 ∧
      (postStep st (some s) body).state = st ∧
      (postStep st (some s) body).calls = []) ∧
    ((getStep st (some s)).response.status = 400 ∧
      (getStep st (some s)).state = st ∧
      (getStep st (some s)).calls = []) ∧
    ((deleteStep st (some s)).response.status = 400 ∧
      (deleteStep st (some s)).state = st ∧
      (deleteStep st (some s)).calls = []) := by
  have hft : findTransport st (some s) = none := by
    by_cases hs : s = ""
    · simp [findTransport, hs]
    · simp [findTransport, hs, hlk]
  by_cases hs : s = ""
  · have hbody := hexc hs
    have htr : truthy (some s) = false := by
      simp [truthy, hs]
    refine ⟨?_, ?_, ?_⟩ <;>
      simp [postStep, getStep, deleteStep, hft, htr, hbody, Response.status]
  · have htr : truthy (some s) = true := by
      simp [truthy, hs]
    refine ⟨?_, ?_, ?_⟩ <;>
      simp [postStep, getStep, deleteStep, hft, htr, Response.status]

theorem unknownSessionNeverDispatched_witness :
    ((postStep initialState (some "x") { method := "initialize" }).response.status = 400 ∧
      (postStep initialState (some "x") { method := "initialize" }).state = initialState ∧
      (postStep initialState (some "x") { method := "initialize" }).calls = []) ∧
    ((getStep initialState (some "x")).response.status = 400 ∧
      (getStep initialState (some "x")).state = initialState ∧
      (getStep initialState (some "x")).calls = []) ∧
    ((deleteStep initialState (some "x")).response.status = 400 ∧
      (deleteStep initialState (some "x")).state = initialState ∧
      (deleteStep initialState (some "x")).calls = []) :=
  unknownSessionNeverDispatched initialState "x" rfl { method := "initialize" }
    (fun h => absurd h (by decide))

/-- A JS exception or promise rejection escaping an awaited external call. -/
structure JsError where
  msg : String
  deriving DecidableEq

/-- The `POST /mcp` handler with the fallibility of its awaited external calls
made explicit.  The source handler contains no try/catch, so the translation
of `await server.connect(transport)` and `await transport.handleRequest(...)`
propagates a rejection (`Except.error`) out of the handler; only the
explicit-rejection branch is reached without awaiting anything.  The outcomes
of the two awaited SDK calls are passed in as parameters. -/
def postStepE (st : GatewayState) (header : Option SessionId) (body : JsonRpcMessage)
    (connectOutcome : Except JsError Unit) (handleOutcome : Except JsError Unit) :
    Except JsError StepResult :=
  match findTransport st header with
  | some t =>
      match handleOutcome with
      | .ok _ => .ok { state := st, response := .ok none, calls := [t.tid] }
      | .error e => .error e
  | none =>
      if !(truthy header) && isInitializeRequest body then
        match connectOutcome with
        | .error e => .error e
        | .ok _ =>
            match handleOutcome with
            | .error e => .error e
            | .ok _ =>
                let sid := genId st.counter
                let t : Transport := { tid := st.nextTid, sessionId := some sid }
                .ok { state :=
                        { transports := setKey sid t st.transports,
                          nextTid := st.nextTid + 1,
                          counter := st.counter + 1,
                          issued := sid :: st.issued },
                      response := .ok (some sid),
                      calls := [st.nextTid] }
      else
        .ok { state := st,
              response := .badRequestJson (-32000) "Bad Request: No valid session ID provided",
              calls := [] }

/-- Claim C8 is violated by the code: the route handlers install no try/catch,
so an error raised during session creation (`server.connect`) or request
dispatch (`transport.handleRequest`) escapes the POST handler as an unhandled
fault instead of being turned into a structured response.  Evaluated at the
failing inputs: a handshake POST whose `server.connect` rejects, and one whose
`handleRequest` rejects. -/
theorem routerErrorEscapes :
    postStepE initialState none { method := "initialize" }
        (.error { msg := "connect failed" }) (.ok ())
      = .error { msg := "connect failed" } ∧
    postStepE initialState none { method := "initialize" }
        (.ok ()) (.error { msg := "handleRequest failed" })
      = .error { msg := "handleRequest failed" } ∧
    postStepE initialState (some "x") { method := "tools/list" }
        (.ok ()) (.ok ())
      = .ok { state := initialState,
              response := .badRequestJson (-32000) "Bad Request: No valid session ID provided",
              calls := [] } :=
  ⟨rfl, rfl, rfl⟩

theorem registryKeyConsistent_witness :
    KeyConsistent (runEvents initialState
      [.post none { method := "initialize" }]).transports ∧
    (getStep initialState none).state = initialState ∧
    (genId 1, ({ tid := 1, sessionId := some (genId 1) } : Transport)) ∈
      (runEvents initialState
        [.post none { method := "initialize" },
         .post none { method := "initialize" }]).transports ∧
    ((genId 0, ({ tid := 0, sessionId := some (genId 0) } : Transport)) ∈
        initialState.transports ∨
      (genId 0, ({ tid := 0, sessionId := some (genId 0) } : Transport)) =
        (genId initialState.counter,
          { tid := initialState.nextTid, sessionId := some (genId initialState.counter) })) :=
  ⟨registryKeyConsistent.1 [.post none { method := "initialize" }],
   registryKeyConsistent.2.1 initialState none,
   registryKeyConsistent.2.2.1
     (runEvents initialState
       [.post none { method := "initialize" },
        .post none { method := "initialize" }])
     (some (genId 0))
     (genId 1, { tid := 1, sessionId := some (genId 1) }) (by decide),
   registryKeyConsistent.2.2.2 initialState none { method := "initialize" }
     (genId 0, { tid := 0, sessionId := some (genId 0) }) (by decide)⟩
